import Mathlib

/-!
Shallow embedding of the VLC telnet client (`python_telnet_vlc/vlctelnet.py`).

Python strings are modelled as Lean `String`s, with the string primitives the
code uses (`split`, `strip`, `lower`, `in`, `int(...)`, indexing) reimplemented
at the `List Char` level so that every definition evaluates inside the kernel.
Python exceptions are modelled by the `Except` monad with an explicit error
kind; stateful parts of the class (the reconnect/retry engine) are modelled as
pure functions over an explicit `Session` record, a transcript of emitted
events, and oracles standing for the behaviour of the remote endpoint.
-/

deriving instance DecidableEq for Except

namespace VLCTelnet

/-- Exception kinds raised by the code under study.  The first five mirror the
exception classes declared at the top of `vlctelnet.py`; the last three are the
Python built-in exceptions the code can let escape.  Exception messages are not
modelled. -/
inductive PyErr
  | connectionError
  | authError
  | commandError
  | luaError
  | parseError
  | valueError
  | indexError
  | keyError
deriving DecidableEq

/-- Characters removed by Python `str.strip()` with no argument (ASCII part). -/
def wsChar (c : Char) : Bool :=
  c == ' ' || c == '\t' || c == '\n' || c == '\r' || c == '\x0b' || c == '\x0c'

/-- Python `str.strip()` on a character list. -/
def trimChars (cs : List Char) : List Char :=
  ((cs.dropWhile wsChar).reverse.dropWhile wsChar).reverse

/-- Numeric value of a list of decimal digit characters. -/
def decValue (cs : List Char) : Nat :=
  cs.foldl (fun a c => 10 * a + (c.toNat - 48)) 0

/-- Digit part of Python `int(...)`: a nonempty run of decimal digits. -/
def pyDigits (cs : List Char) : Except PyErr Nat :=
  if !cs.isEmpty && cs.all Char.isDigit then Except.ok (decValue cs)
  else Except.error PyErr.valueError

/-- Python `int(s)` on the characters of `s`: strip surrounding whitespace,
accept an optional sign followed by decimal digits, raise `ValueError`
otherwise.  (CPython additionally accepts underscore digit grouping and
non-ASCII decimal digits; neither occurs in this development.) -/
def pyIntAux (cs : List Char) : Except PyErr Int :=
  match trimChars cs with
  | [] => Except.error PyErr.valueError
  | c :: rest =>
    if c == '-' then (pyDigits rest).map (fun n => -(n : Int))
    else if c == '+' then (pyDigits rest).map (fun n => (n : Int))
    else (pyDigits (c :: rest)).map (fun n => (n : Int))

/-- Python `int(s)` for a string argument. -/
def pyInt (s : String) : Except PyErr Int := pyIntAux s.toList

/-- Does `pat` occur contiguously inside the second list (Python `pat in s`)? -/
def infixOf (pat : List Char) : List Char → Bool
  | [] => pat.isEmpty
  | c :: cs => pat.isPrefixOf (c :: cs) || infixOf pat cs

/-- Python `pat in s` on strings. -/
def strContains (s pat : String) : Bool := infixOf pat.toList s.toList

/-- Python `str.lower()` (ASCII case folding, as `Char.toLower`). -/
def lowerStr (s : String) : String := String.mk (s.toList.map Char.toLower)

/-- Exponent part of the Python float-literal grammar: empty, or `e`/`E`, an
optional sign, and at least one digit. -/
def pyFloatExp : List Char → Bool
  | [] => true
  | c :: rest =>
    (c == 'e' || c == 'E') &&
    (match rest with
     | [] => false
     | d :: ds =>
       if d == '+' || d == '-' then !ds.isEmpty && ds.all Char.isDigit
       else (d :: ds).all Char.isDigit)

/-- Mantissa-and-exponent part of the Python float grammar: digits, optionally
a point with digits on at least one side, optionally an exponent. -/
def pyFloatMantissa (t : List Char) : Bool :=
  let d1 := t.takeWhile Char.isDigit
  let r1 := t.dropWhile Char.isDigit
  match r1 with
  | '.' :: r2 =>
    let d2 := r2.takeWhile Char.isDigit
    let r3 := r2.dropWhile Char.isDigit
    (!d1.isEmpty || !d2.isEmpty) && pyFloatExp r3
  | _ => !d1.isEmpty && pyFloatExp r1

/-- Would Python `float(s)` succeed?  Strip whitespace, optional sign, then
either an `inf`/`infinity`/`nan` word (any case) or a numeric literal.
(Underscore grouping is again not modelled.)  The decoded value itself is
never needed: the code only stores it, so the model keeps the source text. -/
def pyFloatOk (s : String) : Bool :=
  let t := trimChars s.toList
  let core := match t with
    | c :: rest => if c == '+' || c == '-' then rest else t
    | [] => t
  let low := core.map Char.toLower
  low == "inf".toList || low == "infinity".toList || low == "nan".toList ||
    pyFloatMantissa core

/-- Python `s.split(sep)` for a one-character separator: split at every
occurrence, keeping empty pieces, with `[''] ` for the empty string. -/
def splitChar (sep : Char) : List Char → List (List Char)
  | [] => [[]]
  | c :: cs =>
    if c == sep then [] :: splitChar sep cs
    else
      match splitChar sep cs with
      | [] => [[c]]
      | h :: t => (c :: h) :: t

/-- Python `line.split(' ')`, the tokenisation used by the decoders. -/
def pySplitSpace (s : String) : List String :=
  (splitChar ' ' s.toList).map String.mk

/-- Python `s.split('\r\n')`, the dispatcher's line splitting. -/
def splitCRLF : List Char → List (List Char)
  | [] => [[]]
  | '\r' :: '\n' :: cs => [] :: splitCRLF cs
  | c :: cs =>
    match splitCRLF cs with
    | [] => [[c]]
    | h :: t => (c :: h) :: t

/-- Python `cs.split(':', 1)` as used by the info decoder: the pieces before
and after the first colon, or `none` when there is no colon (in which case the
two-variable unpacking in the source raises `ValueError`). -/
def splitFirstColon : List Char → Option (List Char × List Char)
  | [] => none
  | c :: cs =>
    if c == ':' then some ([], cs)
    else (splitFirstColon cs).map (fun p => (c :: p.1, p.2))

/-- Python `xs[i]` on a list: `IndexError` when out of range. -/
def pyIndex {α : Type} (xs : List α) (i : Nat) : Except PyErr α :=
  match xs.get? i with
  | some x => Except.ok x
  | none => Except.error PyErr.indexError

/-- Python `sep.join(xs)` at character level. -/
def joinWith (sep : List Char) : List (List Char) → List Char
  | [] => []
  | [x] => x
  | x :: xs => x ++ sep ++ joinWith sep xs

/-- Python `'%20'.join(tokens)` from the status decoder. -/
def joinPct (xs : List String) : String :=
  String.mk (joinWith "%20".toList (xs.map String.toList))

/-- Outcome of the password handshake in `login` (lines 86-90 of the source):
which exception is raised, if any, once the challenge-response line is read. -/
inductive LoginOutcome
  | authError
  | commandError
  | success
deriving DecidableEq

/-- Classification of the challenge-response line in `login`: the line is
lower-cased; `"wrong password"` inside it raises `AuthError`, a missing
`"welcome"` raises `CommandError`, and otherwise authentication succeeds.
(The subsequent drain of the banner up to the prompt marker does not affect
the outcome and is not modelled.) -/
def loginClassify (response : String) : LoginOutcome :=
  if strContains (lowerStr response) "wrong password" then LoginOutcome.authError
  else if !(strContains (lowerStr response) "welcome") then LoginOutcome.commandError
  else LoginOutcome.success

/-- Decoder of the toggle branch of `sd` (a non-`'show'` service argument):
given the dispatcher's output lines, take line 0, return `true` when it
contains `"enabled."`, `false` when it contains `"disabled."`, and raise
`ParseError` otherwise. -/
def sd (lines : List String) : Except PyErr Bool := do
  let output ← pyIndex lines 0
  if strContains output "enabled." then Except.ok true
  else if strContains output "disabled." then Except.ok false
  else Except.error PyErr.parseError

/-- Result of the `status` decoder: the dict built at lines 227-238 of the
source, with the `'input'` entry present only in the three-line shape. -/
structure StatusResult where
  input : Option String
  volume : Int
  state : String
deriving DecidableEq

/-- Decoder of `status`: three lines yield input location (tokens `[3:-1]` of
line 0 joined with `"%20"`), volume (line 1 token 3 as `int`) and state
(line 2 token 2); two lines yield volume (line 0 token 3) and state (line 1
token 2); any other line count raises `ParseError`.  All token lists come from
`split(' ')`.  (The `status_output is None` guard in the source is
unreachable: the dispatcher always returns a list.) -/
def status (lines : List String) : Except PyErr StatusResult :=
  match lines with
  | [l0, l1, l2] => do
    let inputloc := joinPct (((pySplitSpace l0).drop 3).dropLast)
    let vtok ← pyIndex (pySplitSpace l1) 3
    let vol ← pyInt vtok
    let st ← pyIndex (pySplitSpace l2) 2
    Except.ok ⟨some inputloc, vol, st⟩
  | [l0, l1] => do
    let vtok ← pyIndex (pySplitSpace l0) 3
    let vol ← pyInt vtok
    let st ← pyIndex (pySplitSpace l1) 2
    Except.ok ⟨none, vol, st⟩
  | _ => Except.error PyErr.parseError

/-- Section key of the info decoder: either the integer a numeric label
coerces to, or the label text itself. -/
inductive SKey
  | int (n : Int)
  | str (s : String)
deriving DecidableEq

/-- Field value of the info decoder after the `int` / `float` / stripped
string coercion chain.  A successful float coercion is recorded by its source
text: the code never computes with it. -/
inductive PyVal
  | int (n : Int)
  | float (text : String)
  | str (s : String)
deriving DecidableEq

/-- Insertion-ordered dictionary update, as Python `d[k] = v`: replace in
place when the key exists, append otherwise. -/
def dictSet {α β : Type} [DecidableEq α] (d : List (α × β)) (k : α) (v : β) :
    List (α × β) :=
  if d.any (fun p => decide (p.1 = k)) then
    d.map (fun p => if p.1 = k then (k, v) else p)
  else d ++ [(k, v)]

/-- The `try int / except try float / except strip` coercion of an info field
value (lines 339-345 of the source). -/
def coerceVal (v : String) : PyVal :=
  match pyInt v with
  | Except.ok n => PyVal.int n
  | Except.error _ =>
    if pyFloatOk v then PyVal.float v
    else PyVal.str (String.mk (trimChars v.toList))

/-- The `key, value = l[2:].split(':', 1)` unpacking of an info field line:
`ValueError` when the content has no colon. -/
def pyFieldSplit (cs : List Char) : Except PyErr (String × String) :=
  match splitFirstColon cs with
  | some p => Except.ok (String.mk p.1, String.mk p.2)
  | none => Except.error PyErr.valueError

/-- Section key extraction for a `+` line of `info`:
`l.split('[')[1].replace(']', '').strip().split(' ')[1]`, then an attempted
integer coercion of the token. -/
def pySectionKey (l : String) : Except PyErr SKey := do
  let part ← pyIndex (splitChar '[' l.toList) 1
  let cleaned := trimChars (part.filter (fun c => !(c == ']')))
  let tok ← pyIndex (splitChar ' ' cleaned) 1
  match pyIntAux tok with
  | Except.ok n => Except.ok (SKey.int n)
  | Except.error _ => Except.ok (SKey.str (String.mk tok))

/-- One iteration of the `info` loop on line `l`, carrying the current
section (initially Python `None`) and the accumulated data dict.  An empty
line makes `l[0]` raise `IndexError`; a `+` line opens a section unless it is
the end-of-stream-info sentinel; a `|` line with content after the two-char
prefix is split at its first colon and stored under the current section,
raising `KeyError` when no section is open; any other line raises
`ParseError`. -/
def infoStep (sec : Option SKey) (data : List (SKey × List (String × PyVal)))
    (l : String) :
    Except PyErr (Option SKey × List (SKey × List (String × PyVal))) :=
  match l.toList with
  | [] => Except.error PyErr.indexError
  | c :: rest =>
    if c = '+' then
      if strContains l "end of stream info" then Except.ok (sec, data)
      else do
        let key ← pySectionKey l
        Except.ok (some key, dictSet data key [])
    else if c = '|' then
      if rest.drop 1 = [] then Except.ok (sec, data)
      else do
        let kv ← pyFieldSplit (rest.drop 1)
        let value := coerceVal kv.2
        match sec with
        | none => Except.error PyErr.keyError
        | some k =>
          match data.find? (fun p => decide (p.1 = k)) with
          | none => Except.error PyErr.keyError
          | some entry =>
            Except.ok
              (sec, dictSet data k
                (dictSet entry.2 (String.mk (trimChars kv.1.toList)) value))
    else Except.error PyErr.parseError

/-- The `info` loop over the remaining lines. -/
def infoGo (sec : Option SKey) (data : List (SKey × List (String × PyVal))) :
    List String → Except PyErr (List (SKey × List (String × PyVal)))
  | [] => Except.ok data
  | l :: ls =>
    match infoStep sec data l with
    | Except.error e => Except.error e
    | Except.ok st => infoGo st.1 st.2 ls

/-- Decoder of `info`: fold the loop body over the dispatcher's output lines
starting from no open section and an empty dict. -/
def info (lines : List String) : Except PyErr (List (SKey × List (String × PyVal))) :=
  infoGo none [] lines

/-- Decoder of `get_time`: first output line, `int`-coerced, with the empty
(falsy) string mapped to 0 before the coercion is attempted. -/
def get_time (lines : List String) : Except PyErr Int := do
  let stream_time ← pyIndex lines 0
  if stream_time = "" then Except.ok 0 else pyInt stream_time

/-- Decoder of `get_length`: identical to `get_time`. -/
def get_length (lines : List String) : Except PyErr Int := do
  let stream_length ← pyIndex lines 0
  if stream_length = "" then Except.ok 0 else pyInt stream_length

/-- Decoder of `is_playing`: `true` exactly when the first output line is the
literal `"1"`. -/
def is_playing (lines : List String) : Except PyErr Bool := do
  let command_output ← pyIndex lines 0
  Except.ok (if command_output = "1" then true else false)

/-- Decoder of `volume` (the getter): first output line, `int`-coerced with no
empty-string guard. -/
def volume (lines : List String) : Except PyErr Int := do
  let first ← pyIndex lines 0
  pyInt first

/-- Decoder of `get_title`: first output line verbatim. -/
def get_title (lines : List String) : Except PyErr String := pyIndex lines 0

/-- Decoder of `title`: first output line verbatim. -/
def title (lines : List String) : Except PyErr String := pyIndex lines 0

/-- Decoder of `chapter`: first output line verbatim. -/
def chapter (lines : List String) : Except PyErr String := pyIndex lines 0

/-- Decoder of the passthrough getter `adev`. -/
def adev (lines : List String) : Except PyErr String := pyIndex lines 0

/-- Decoder of the passthrough getter `achan`. -/
def achan (lines : List String) : Except PyErr String := pyIndex lines 0

/-- Decoder of the passthrough getter `atrack`. -/
def atrack (lines : List String) : Except PyErr String := pyIndex lines 0

/-- Decoder of the passthrough getter `vtrack`. -/
def vtrack (lines : List String) : Except PyErr String := pyIndex lines 0

/-- Decoder of the passthrough getter `vratio` (renamed: Lean reserves the
original spelling). -/
def vratioGet (lines : List String) : Except PyErr String := pyIndex lines 0

/-- Decoder of the passthrough getter `crop`. -/
def crop (lines : List String) : Except PyErr String := pyIndex lines 0

/-- Decoder of the passthrough getter `zoom`. -/
def zoom (lines : List String) : Except PyErr String := pyIndex lines 0

/-- Decoder of the passthrough getter `vdeinterlace`. -/
def vdeinterlace (lines : List String) : Except PyErr String := pyIndex lines 0

/-- Decoder of the passthrough getter `vdeinterlace_mode`. -/
def vdeinterlace_mode (lines : List String) : Except PyErr String := pyIndex lines 0

/-- Decoder of the passthrough getter `strack`. -/
def strack (lines : List String) : Except PyErr String := pyIndex lines 0

/-- Session fields of the `VLCTelnet` class that survive across commands.
`tnOpens` stands for the transport slot: it counts how many times `tn.open`
has succeeded, so a change of transport is visible while the connection
parameters stay observable. -/
structure Session where
  host : String
  port : Nat
  password : String
  retries : Nat
  tnOpens : Nat
deriving DecidableEq

/-- Externally visible actions of the command engine, in order of occurrence:
a liveness probe (`is_connected`, which writes a bare newline), a transport
reconnect (`connect`), an authentication handshake (`login`), and the actual
command write-and-read (`do_send_string`, carrying the command text). -/
inductive Ev
  | probe
  | connect
  | login
  | send (cmd : String)
deriving DecidableEq

/-- Is the event a liveness probe? -/
def isProbe : Ev → Bool
  | Ev.probe => true
  | _ => false

/-- Is the event a transport reconnect? -/
def isConnect : Ev → Bool
  | Ev.connect => true
  | _ => false

/-- Is the event an authentication handshake? -/
def isLogin : Ev → Bool
  | Ev.login => true
  | _ => false

/-- Is the event a command send? -/
def isSend : Ev → Bool
  | Ev.send _ => true
  | _ => false

/-- Effect of a successful `connect` on the session: a fresh transport is
opened; host, port, password and the default retry budget are untouched. -/
def connectFn (s : Session) : Session :=
  { s with tnOpens := s.tnOpens + 1 }

/-- Does `re.match` accept the string for a pattern `.*` followed by the
literal suffix `suf`?  True when `suf` starts at some position reachable
without crossing a newline. -/
def dotStarThen (suf : List Char) : List Char → Bool
  | [] => suf.isEmpty
  | c :: cs => suf.isPrefixOf (c :: cs) || (!(c == '\n') && dotStarThen suf cs)

/-- The dispatcher's unknown-command pattern:
``re.match(r"Unknown command `.*'\. Type `help' for help\.", line)``. -/
def matchUnknownCommand (s : String) : Bool :=
  "Unknown command `".toList.isPrefixOf s.toList &&
    dotStarThen "'. Type `help' for help.".toList
      (s.toList.drop "Unknown command `".toList.length)

/-- The dispatcher's lua-error pattern: `re.match(r"Error in.*", line)`. -/
def matchErrorIn (s : String) : Bool :=
  "Error in".toList.isPrefixOf s.toList

/-- `do_send_string`, given the raw text the transport returns up to and
including the prompt marker: split on `"\r\n"`, drop the final element (the
prompt), then classify the first remaining line against the two error
patterns — unknown command first, then the lua-error pattern — and otherwise
return the whole line list. -/
def do_send_string (raw : String) : Except PyErr (List String) :=
  let command_output := ((splitCRLF raw.toList).map String.mk).dropLast
  match command_output with
  | [] => Except.ok []
  | first :: _ =>
    if matchUnknownCommand first then Except.error PyErr.commandError
    else if matchErrorIn first then Except.error PyErr.luaError
    else Except.ok command_output

/-- `do_run_command`: probe liveness; when alive, send and return; when dead
with budget left, reconnect and recurse on the decremented budget; when dead
with no budget, raise `ConnectionError`.  The remote endpoint is abstracted by
oracles: `alive n` is the result of the n-th liveness probe of this
invocation, `connOk n` tells whether a reconnect attempted right after that
probe succeeds (a failed `tn.open` raises `ConnectionError` from `connect`),
and `raw` is the text a successful send reads back.  The result carries the
final session and the transcript of events. -/
def do_run_command (alive connOk : Nat → Bool) (raw cmd : String) :
    Nat → Session → Nat → Except PyErr (List String) × Session × List Ev
  | step, s, 0 =>
    if alive step then (do_send_string raw, s, [Ev.probe, Ev.send cmd])
    else (Except.error PyErr.connectionError, s, [Ev.probe])
  | step, s, r + 1 =>
    if alive step then (do_send_string raw, s, [Ev.probe, Ev.send cmd])
    else if connOk step then
      let p := do_run_command alive connOk raw cmd (step + 1) (connectFn s) r
      (p.1, p.2.1, Ev.probe :: Ev.connect :: p.2.2)
    else (Except.error PyErr.connectionError, s, [Ev.probe, Ev.connect])

/-- `run_command`: delegate to `do_run_command` with the per-call budget
seeded from the session-level default `self.retries`. -/
def run_command (alive connOk : Nat → Bool) (raw cmd : String) (s : Session) :
    Except PyErr (List String) × Session × List Ev :=
  do_run_command alive connOk raw cmd 0 s s.retries

/-- `set_volume`: the command string `'volume {}'.format(int(setto))` is
built before anything is sent, so a failing integer coercion raises before
`run_command` is reached and the transcript stays empty. -/
def set_volume (alive connOk : Nat → Bool) (raw : String) (s : Session)
    (setto : String) : Except PyErr Unit × Session × List Ev :=
  match pyInt setto with
  | Except.error e => (Except.error e, s, [])
  | Except.ok n =>
    let p := run_command alive connOk raw ("volume " ++ toString n) s
    (p.1.map (fun _ => ()), p.2.1, p.2.2)

/-- Does the line start with `'+'` (a section-opening line of `info`)? -/
def startsPlus (l : String) : Bool := decide (l.toList.take 1 = ['+'])

/-- Is the line a field line of `info`: first character `'|'` and nonempty
content after the two-character prefix? -/
def isFieldLine (l : String) : Bool :=
  decide (l.toList.take 1 = ['|']) && !(l.toList.drop 2).isEmpty

/-- Does the content of a field line (past the two-character prefix) contain
a colon, so that the `split(':', 1)` unpacking succeeds? -/
def hasColonContent (l : String) : Bool :=
  (splitFirstColon (l.toList.drop 2)).isSome

/-- Is the line a `'|'` line with empty content after the two-character
prefix — the only non-`'+'` line shape the info loop skips without raising? -/
def isInertLine (l : String) : Bool :=
  decide (l.toList.take 1 = ['|']) && (l.toList.drop 2).isEmpty

/-- Is the line nonempty and starting with neither `'+'` nor `'|'` — the only
line shape from which the info loop raises ParseError? -/
def isJunkLine (l : String) : Bool :=
  !l.toList.isEmpty && !(decide (l.toList.take 1 = ['+'])) &&
    !(decide (l.toList.take 1 = ['|']))

/-- Split at every character satisfying the predicate, keeping empty pieces. -/
def splitPred (p : Char → Bool) : List Char → List (List Char)
  | [] => [[]]
  | c :: cs =>
    if p c then [] :: splitPred p cs
    else
      match splitPred p cs with
      | [] => [[c]]
      | h :: t => (c :: h) :: t

/-- Modelled from the claim's words for comparison with the source behaviour:
whitespace-split tokens in the sense of Python `str.split()` with no
argument — split on maximal whitespace runs, no empty tokens. -/
def pyWhitespaceSplit (s : String) : List String :=
  ((splitPred Char.isWhitespace s.toList).filter (fun t => !t.isEmpty)).map
    String.mk

/-- Sequencing a successful step in the exception monad runs the rest. -/
theorem bindOk {α β : Type} (a : α) (f : α → Except PyErr β) :
    (Except.ok a : Except PyErr α) >>= f = f a := rfl

/-- Sequencing after a raised exception propagates the exception. -/
theorem bindErr {α β : Type} (e : PyErr) (f : α → Except PyErr β) :
    (Except.error e : Except PyErr α) >>= f = Except.error e := rfl

/-- A decimal digit is not equal to any non-digit character. -/
theorem digit_ne_of_not_digit (c x : Char) (h : c.isDigit = true)
    (hx : x.isDigit = false) : (c == x) = false := by
  cases hb : (c == x) with
  | false => rfl
  | true =>
    exfalso
    rw [beq_iff_eq] at hb
    subst hb
    rw [h] at hx
    exact Bool.noConfusion hx

/-- A decimal digit is not stripped by Python `strip()`. -/
theorem not_wsChar_of_digit (c : Char) (h : c.isDigit = true) :
    wsChar c = false := by
  simp only [wsChar,
    digit_ne_of_not_digit c ' ' h (by decide),
    digit_ne_of_not_digit c '\t' h (by decide),
    digit_ne_of_not_digit c '\n' h (by decide),
    digit_ne_of_not_digit c '\r' h (by decide),
    digit_ne_of_not_digit c '\x0b' h (by decide),
    digit_ne_of_not_digit c '\x0c' h (by decide), Bool.or_self]

/-- Stripping leading whitespace does nothing to an all-digit list. -/
theorem dropWhile_ws_of_digits (cs : List Char)
    (h : cs.all Char.isDigit = true) : cs.dropWhile wsChar = cs := by
  cases cs with
  | nil => rfl
  | cons c cs =>
    rw [List.all_cons, Bool.and_eq_true] at h
    rw [List.dropWhile_cons, not_wsChar_of_digit c h.1]
    simp

/-- Python `strip()` does nothing to an all-digit list. -/
theorem trimChars_of_digits (cs : List Char)
    (h : cs.all Char.isDigit = true) : trimChars cs = cs := by
  unfold trimChars
  rw [dropWhile_ws_of_digits cs h,
    dropWhile_ws_of_digits cs.reverse (by rw [List.all_reverse]; exact h),
    List.reverse_reverse]

/-- Python `int` on a nonempty all-digit character list returns its decimal
value. -/
theorem pyIntAux_digits (cs : List Char) (h0 : cs ≠ [])
    (h : cs.all Char.isDigit = true) :
    pyIntAux cs = Except.ok ((decValue cs : Nat) : Int) := by
  unfold pyIntAux
  rw [trimChars_of_digits cs h]
  cases cs with
  | nil => exact absurd rfl h0
  | cons c rest =>
    rw [List.all_cons, Bool.and_eq_true] at h
    simp only [digit_ne_of_not_digit c '-' h.1 (by decide),
      digit_ne_of_not_digit c '+' h.1 (by decide), Bool.false_eq_true,
      if_false]
    simp [pyDigits, List.all_cons, h.1, h.2, Except.map]

/-- C4: for every challenge-response line read during login, a lower-cased
form containing "wrong password" makes login raise AuthError (so never
CommandError); a form containing neither "wrong password" nor "welcome" makes
it raise CommandError; otherwise login succeeds. -/
theorem login_response_classification (r : String) :
    (strContains (lowerStr r) "wrong password" = true →
      loginClassify r = LoginOutcome.authError) ∧
    (strContains (lowerStr r) "wrong password" = false →
      strContains (lowerStr r) "welcome" = false →
      loginClassify r = LoginOutcome.commandError) ∧
    (strContains (lowerStr r) "wrong password" = false →
      strContains (lowerStr r) "welcome" = true →
      loginClassify r = LoginOutcome.success) := by
  refine ⟨fun h1 => ?_, fun h1 h2 => ?_, fun h1 h2 => ?_⟩
  · simp [loginClassify, h1]
  · simp [loginClassify, h1, h2]
  · simp [loginClassify, h1, h2]

/-- Concrete instantiation of the login classification. -/
theorem login_response_classification_witness :
    loginClassify "VLC: Wrong Password!" = LoginOutcome.authError ∧
    loginClassify "???" = LoginOutcome.commandError ∧
    loginClassify "Welcome, Master" = LoginOutcome.success :=
  ⟨(login_response_classification "VLC: Wrong Password!").1 (by decide),
   (login_response_classification "???").2.1 (by decide) (by decide),
   (login_response_classification "Welcome, Master").2.2 (by decide) (by decide)⟩

/-- C6: the service-discovery toggle decoder returns true when the first line
contains "enabled.", false when it (does not contain "enabled." and) contains
"disabled.", and raises ParseError for any other first-line content; the two
substring checks are made in this order. -/
theorem sd_toggle_decodes (first : String) (rest : List String) :
    (strContains first "enabled." = true →
      sd (first :: rest) = Except.ok true) ∧
    (strContains first "enabled." = false →
      strContains first "disabled." = true →
      sd (first :: rest) = Except.ok false) ∧
    (strContains first "enabled." = false →
      strContains first "disabled." = false →
      sd (first :: rest) = Except.error PyErr.parseError) := by
  refine ⟨fun h1 => ?_, fun h1 h2 => ?_, fun h1 h2 => ?_⟩
  · simp [sd, pyIndex, bindOk, h1]
  · simp [sd, pyIndex, bindOk, h1, h2]
  · simp [sd, pyIndex, bindOk, h1, h2]

/-- Concrete instantiation of the toggle decoder. -/
theorem sd_toggle_decodes_witness :
    sd ["Services discovery cmd-line enabled."] = Except.ok true ∧
    sd ["Services discovery cmd-line disabled."] = Except.ok false ∧
    sd ["nonsense"] = Except.error PyErr.parseError :=
  ⟨(sd_toggle_decodes "Services discovery cmd-line enabled." []).1 (by decide),
   (sd_toggle_decodes "Services discovery cmd-line disabled." []).2.1
     (by decide) (by decide),
   (sd_toggle_decodes "nonsense" []).2.2 (by decide) (by decide)⟩

/-- C7: a response whose first line is the empty string decodes to 0 under
get_time and get_length; a first line that is a decimal numeral decodes to
its value; is_playing decodes to true exactly on the literal first line "1"
and to false on every other first line. -/
theorem numeric_getters (s : String) (rest : List String) :
    (get_time ("" :: rest) = Except.ok 0) ∧
    (get_length ("" :: rest) = Except.ok 0) ∧
    (s.toList ≠ [] → s.toList.all Char.isDigit = true →
      get_time (s :: rest) = Except.ok ((decValue s.toList : Nat) : Int) ∧
      get_length (s :: rest) = Except.ok ((decValue s.toList : Nat) : Int)) ∧
    (is_playing ("1" :: rest) = Except.ok true) ∧
    (s ≠ "1" → is_playing (s :: rest) = Except.ok false) := by
  refine ⟨rfl, rfl, fun h0 hd => ?_, rfl, fun h1 => ?_⟩
  · have hs : ¬(s = "") := by
      intro he
      subst he
      exact h0 rfl
    constructor
    · show (if s = "" then (Except.ok 0 : Except PyErr Int) else pyInt s) = _
      rw [if_neg hs]
      exact pyIntAux_digits s.toList h0 hd
    · show (if s = "" then (Except.ok 0 : Except PyErr Int) else pyInt s) = _
      rw [if_neg hs]
      exact pyIntAux_digits s.toList h0 hd
  · simp [is_playing, pyIndex, bindOk, h1]

/-- Concrete instantiation of the scalar getters. -/
theorem numeric_getters_witness :
    get_time ["42"] = Except.ok 42 ∧ is_playing ["0"] = Except.ok false :=
  ⟨Eq.trans ((numeric_getters "42" []).2.2.1 (by decide) (by decide)).1
     (by decide),
   (numeric_getters "0" []).2.2.2.2 (by decide)⟩

/-- C8: when the argument of set_volume does not coerce to an integer, the
call fails with that coercion error before anything is sent: the transcript
is empty and the session is unchanged. -/
theorem set_volume_nonnumeric (alive connOk : Nat → Bool) (raw : String)
    (s : Session) (setto : String) (e : PyErr)
    (h : pyInt setto = Except.error e) :
    set_volume alive connOk raw s setto = (Except.error e, s, []) := by
  simp [set_volume, h]

/-- Concrete instantiation of the set_volume failure. -/
theorem set_volume_nonnumeric_witness :
    set_volume (fun _ => false) (fun _ => true) ""
        ⟨"localhost", 4212, "admin", 5, 0⟩ "loud"
      = (Except.error PyErr.valueError, ⟨"localhost", 4212, "admin", 5, 0⟩, []) :=
  set_volume_nonnumeric _ _ _ _ "loud" PyErr.valueError (by decide)

/-- C10: when the dispatcher's raw response is solely the prompt marker, it
returns the empty line sequence, and every first-line getter then fails with
IndexError on element 0 rather than returning a value or raising
ParseError. -/
theorem prompt_only_response_getters :
    do_send_string "> " = Except.ok [] ∧
    get_time [] = Except.error PyErr.indexError ∧
    get_length [] = Except.error PyErr.indexError ∧
    get_title [] = Except.error PyErr.indexError ∧
    is_playing [] = Except.error PyErr.indexError ∧
    volume [] = Except.error PyErr.indexError ∧
    title [] = Except.error PyErr.indexError ∧
    chapter [] = Except.error PyErr.indexError ∧
    adev [] = Except.error PyErr.indexError ∧
    achan [] = Except.error PyErr.indexError ∧
    atrack [] = Except.error PyErr.indexError ∧
    vtrack [] = Except.error PyErr.indexError ∧
    vratioGet [] = Except.error PyErr.indexError ∧
    crop [] = Except.error PyErr.indexError ∧
    zoom [] = Except.error PyErr.indexError ∧
    vdeinterlace [] = Except.error PyErr.indexError ∧
    vdeinterlace_mode [] = Except.error PyErr.indexError ∧
    strack [] = Except.error PyErr.indexError := by
  decide

/-- C5 (amended): the status decoder on three lines yields the input location
from line 0's space-split tokens `[3:-1]` joined with "%20", the volume from
line 1's token 3 as an integer, and the state from line 2's token 2; on two
lines only volume (line 0 token 3) and state (line 1 token 2); any other line
count raises ParseError.  Tokens come from `split(' ')`, the split at each
single space character with empty tokens preserved. -/
theorem status_decodes :
    (∀ (l0 l1 l2 vtok st : String) (v : Int),
      pyIndex (pySplitSpace l1) 3 = Except.ok vtok →
      pyInt vtok = Except.ok v →
      pyIndex (pySplitSpace l2) 2 = Except.ok st →
      status [l0, l1, l2] =
        Except.ok ⟨some (joinPct (((pySplitSpace l0).drop 3).dropLast)), v, st⟩) ∧
    (∀ (l0 l1 vtok st : String) (v : Int),
      pyIndex (pySplitSpace l0) 3 = Except.ok vtok →
      pyInt vtok = Except.ok v →
      pyIndex (pySplitSpace l1) 2 = Except.ok st →
      status [l0, l1] = Except.ok ⟨none, v, st⟩) ∧
    (∀ lines : List String, lines.length ≠ 2 → lines.length ≠ 3 →
      status lines = Except.error PyErr.parseError) := by
  refine ⟨?_, ?_, ?_⟩
  · intro l0 l1 l2 vtok st v h1 h2 h3
    simp [status, h1, h2, h3, bindOk]
  · intro l0 l1 vtok st v h1 h2 h3
    simp [status, h1, h2, h3, bindOk]
  · intro lines h2 h3
    cases lines with
    | nil => rfl
    | cons a t1 =>
      cases t1 with
      | nil => rfl
      | cons b t2 =>
        cases t2 with
        | nil => exact absurd rfl h2
        | cons c t3 =>
          cases t3 with
          | nil => exact absurd rfl h3
          | cons d t4 => rfl

/-- Concrete instantiation of the status decoder. -/
theorem status_decodes_witness :
    status ["( new input: http://x )", "( audio volume: 256 )",
        "( state playing )"]
      = Except.ok ⟨some "http://x", 256, "playing"⟩ ∧
    status [] = Except.error PyErr.parseError :=
  ⟨Eq.trans
     (status_decodes.1 "( new input: http://x )" "( audio volume: 256 )"
       "( state playing )" "256" "playing" 256 (by decide) (by decide)
       (by decide))
     (by decide),
   status_decodes.2.2 [] (by decide) (by decide)⟩

/-- C5 counterexample: on a first status line with two consecutive spaces the
code joins the `split(' ')` tokens, keeping the empty token, while joining the
whitespace-split tokens of the claim would not; the two decoded input
locations differ. -/
theorem status_whitespace_counterexample :
    status ["( new input: a  b )", "( audio volume: 256 )",
        "( state playing )"]
      = Except.ok ⟨some "a%20%20b", 256, "playing"⟩ ∧
    joinPct (((pyWhitespaceSplit "( new input: a  b )").drop 3).dropLast)
      = "a%20b" ∧
    decide (("a%20%20b" : String) = "a%20b") = false := by
  refine ⟨by decide, by decide, by decide⟩

/-- The retry engine under an always-dead liveness probe: the result is
ConnectionError and at most `retries + 1` probe attempts are made, whatever
the reconnect oracle answers. -/
theorem do_run_dead (alive connOk : Nat → Bool) (raw cmd : String)
    (h : ∀ n, alive n = false) :
    ∀ (r step : Nat) (s : Session),
      (do_run_command alive connOk raw cmd step s r).1
          = Except.error PyErr.connectionError ∧
      (do_run_command alive connOk raw cmd step s r).2.2.countP isProbe
          ≤ r + 1 := by
  intro r
  induction r with
  | zero =>
    intro step s
    simp [do_run_command, h step, List.countP, List.countP.go, isProbe]
  | succ n ih =>
    intro step s
    cases hc : connOk step with
    | false =>
      simp [do_run_command, h step, hc, List.countP, List.countP.go, isProbe]
    | true =>
      have hrec := ih (step + 1) (connectFn s)
      simp only [do_run_command, h step, hc, Bool.false_eq_true, if_false,
        if_true]
      refine ⟨hrec.1, ?_⟩
      have h2 := hrec.2
      simp [List.countP_cons, isProbe, isConnect]
      omega

/-- C2: with the per-call budget seeded from the session default and a
liveness probe that reports dead on every check, run_command makes at most
`retries + 1` attempts (counted by its liveness probes) and raises
ConnectionError; the recursion over the decremented budget is a total
function, so it terminates. -/
theorem run_command_dead_transport (alive connOk : Nat → Bool)
    (raw cmd : String) (s : Session) (h : ∀ n, alive n = false) :
    (run_command alive connOk raw cmd s).1
        = Except.error PyErr.connectionError ∧
    (run_command alive connOk raw cmd s).2.2.countP isProbe
        ≤ s.retries + 1 :=
  do_run_dead alive connOk raw cmd h s.retries 0 s

/-- Concrete instantiation of the dead-transport bound. -/
theorem run_command_dead_transport_witness :
    (run_command (fun _ => false) (fun _ => true) "" "play"
        ⟨"localhost", 4212, "admin", 5, 0⟩).1
      = Except.error PyErr.connectionError ∧
    (run_command (fun _ => false) (fun _ => true) "" "play"
        ⟨"localhost", 4212, "admin", 5, 0⟩).2.2.countP isProbe ≤ 5 + 1 :=
  run_command_dead_transport _ _ "" "play" _ (fun _ => rfl)

/-- The retry engine emits only probe, connect and send events; in particular
it never runs the authentication handshake. -/
theorem do_run_no_login (alive connOk : Nat → Bool) (raw cmd : String) :
    ∀ (r step : Nat) (s : Session),
      (do_run_command alive connOk raw cmd step s r).2.2.countP isLogin = 0 ∧
      (do_run_command alive connOk raw cmd step s r).2.2.all
          (fun e => isProbe e || isConnect e || isSend e) = true := by
  intro r
  induction r with
  | zero =>
    intro step s
    cases ha : alive step <;>
      simp [do_run_command, ha, List.countP, List.countP.go, isLogin,
        isProbe, isConnect, isSend]
  | succ n ih =>
    intro step s
    cases ha : alive step with
    | true =>
      simp [do_run_command, ha, List.countP, List.countP.go, isLogin,
        isProbe, isConnect, isSend]
    | false =>
      cases hc : connOk step with
      | false =>
        simp [do_run_command, ha, hc, List.countP, List.countP.go, isLogin,
          isProbe, isConnect, isSend]
      | true =>
        have hrec := ih (step + 1) (connectFn s)
        simp only [do_run_command, ha, hc, Bool.false_eq_true, if_false,
          if_true, List.countP_cons, List.all_cons, isLogin, isProbe,
          isConnect, isSend]
        simp only [Bool.false_eq_true, if_false, Bool.true_or, Bool.or_true,
          Bool.true_and, Nat.add_zero]
        exact ⟨hrec.1, hrec.2⟩

/-- C3: in every execution of run_command only probes, reconnects and the
final send appear in the transcript, and login never does: the automatic
reconnect path re-opens the transport without re-authenticating. -/
theorem run_command_no_login (alive connOk : Nat → Bool) (raw cmd : String)
    (s : Session) :
    (run_command alive connOk raw cmd s).2.2.countP isLogin = 0 ∧
    (run_command alive connOk raw cmd s).2.2.all
        (fun e => isProbe e || isConnect e || isSend e) = true :=
  do_run_no_login alive connOk raw cmd s.retries 0 s

/-- The retry engine never changes the stored connection parameters: host,
port, password and the session-level default budget survive any number of
reconnects (only the transport slot is replaced). -/
theorem do_run_frame (alive connOk : Nat → Bool) (raw cmd : String) :
    ∀ (r step : Nat) (s : Session),
      (do_run_command alive connOk raw cmd step s r).2.1.host = s.host ∧
      (do_run_command alive connOk raw cmd step s r).2.1.port = s.port ∧
      (do_run_command alive connOk raw cmd step s r).2.1.password
          = s.password ∧
      (do_run_command alive connOk raw cmd step s r).2.1.retries
          = s.retries := by
  intro r
  induction r with
  | zero =>
    intro step s
    cases ha : alive step <;> simp [do_run_command, ha]
  | succ n ih =>
    intro step s
    cases ha : alive step with
    | true => simp [do_run_command, ha]
    | false =>
      cases hc : connOk step with
      | false => simp [do_run_command, ha, hc]
      | true =>
        have hrec := ih (step + 1) (connectFn s)
        simp only [do_run_command, ha, hc, Bool.false_eq_true, if_false,
          if_true]
        exact ⟨hrec.1, hrec.2.1, hrec.2.2.1, hrec.2.2.2⟩

/-- C9: run_command seeds its per-call budget from the session default
`retries` (definitionally) and leaves the session-level fields host, port,
password and retries unchanged, however many reconnect attempts the
invocation consumes; a later invocation therefore starts from the same
default budget. -/
theorem run_command_frame (alive connOk : Nat → Bool) (raw cmd : String)
    (s : Session) :
    run_command alive connOk raw cmd s
        = do_run_command alive connOk raw cmd 0 s s.retries ∧
    (run_command alive connOk raw cmd s).2.1.host = s.host ∧
    (run_command alive connOk raw cmd s).2.1.port = s.port ∧
    (run_command alive connOk raw cmd s).2.1.password = s.password ∧
    (run_command alive connOk raw cmd s).2.1.retries = s.retries :=
  ⟨rfl, do_run_frame alive connOk raw cmd s.retries 0 s⟩

/-- A failing first step of the info loop fails the whole loop. -/
theorem infoGo_cons_error (sec : Option SKey)
    (data : List (SKey × List (String × PyVal))) (l : String)
    (ls : List String) (e : PyErr)
    (hstep : infoStep sec data l = Except.error e) :
    infoGo sec data (l :: ls) = Except.error e := by
  simp [infoGo, hstep]

/-- A successful first step of the info loop continues on its new state. -/
theorem infoGo_cons_ok (sec : Option SKey)
    (data : List (SKey × List (String × PyVal))) (l : String)
    (ls : List String) (st : Option SKey × List (SKey × List (String × PyVal)))
    (hstep : infoStep sec data l = Except.ok st) :
    infoGo sec data (l :: ls) = infoGo st.1 st.2 ls := by
  simp [infoGo, hstep]

/-- On the initial state (no open section, empty dict), a field line with
content makes the loop body raise: KeyError when the content has a colon (the
lookup of the unset section fails), ValueError otherwise (the two-variable
unpacking of the colon split fails). -/
theorem infoStep_field_none (fl : String) (hfl : isFieldLine fl = true) :
    infoStep none [] fl = Except.error
      (if hasColonContent fl then PyErr.keyError else PyErr.valueError) := by
  rw [isFieldLine, Bool.and_eq_true] at hfl
  have h1 := of_decide_eq_true hfl.1
  have h2 := hfl.2
  cases hcs : fl.toList with
  | nil =>
    rw [hcs] at h1
    exact absurd h1 (by decide)
  | cons c rest =>
    rw [hcs] at h1 h2
    simp only [List.take_succ_cons, List.take_zero, List.cons.injEq,
      and_true] at h1
    subst h1
    have hcs' : fl.data = '|' :: rest := hcs
    have htl : (List.drop 2 ('|' :: rest)) = rest.tail := by
      rw [show (List.drop 2 ('|' :: rest)) = rest.drop 1 from rfl,
        List.drop_one]
    rw [htl] at h2
    have hdrop : ¬(rest.tail = []) := by
      intro he
      rw [he] at h2
      simp at h2
    cases hsc : splitFirstColon rest.tail with
    | none =>
      simp [hasColonContent, hcs, hcs', htl, hsc, infoStep, hdrop,
        pyFieldSplit, bindErr]
    | some p =>
      simp [hasColonContent, hcs, hcs', htl, hsc, infoStep, hdrop,
        pyFieldSplit, bindOk]

/-- A `'|'` line with empty content is skipped: the loop body leaves any
state unchanged. -/
theorem infoStep_inert (sec : Option SKey)
    (data : List (SKey × List (String × PyVal))) (l : String)
    (h : isInertLine l = true) : infoStep sec data l = Except.ok (sec, data) := by
  rw [isInertLine, Bool.and_eq_true] at h
  have h1 := of_decide_eq_true h.1
  have h2 := h.2
  cases hcs : l.toList with
  | nil =>
    rw [hcs] at h1
    exact absurd h1 (by decide)
  | cons c rest =>
    rw [hcs] at h1 h2
    simp only [List.take_succ_cons, List.take_zero, List.cons.injEq,
      and_true] at h1
    subst h1
    have hcs' : l.data = '|' :: rest := hcs
    have htl : (List.drop 2 ('|' :: rest)) = rest.tail := by
      rw [show (List.drop 2 ('|' :: rest)) = rest.drop 1 from rfl,
        List.drop_one]
    rw [htl] at h2
    have hdrop : rest.tail = [] := by
      cases he : rest.tail with
      | nil => rfl
      | cons x xs =>
        rw [he] at h2
        exact Bool.noConfusion h2
    simp [infoStep, hcs', hdrop]

/-- On the initial state (no open section, empty dict), every line that does
not start with `'+'` falls into exactly one of four shapes, each with its
exact outcome: an empty-content `'|'` line is skipped; an empty line raises
IndexError; a contentful `'|'` line raises KeyError or ValueError; any other
line raises ParseError. -/
theorem infoStep_classify (l : String) (hp : startsPlus l = false) :
    (isInertLine l = true ∧ infoStep none [] l = Except.ok (none, [])) ∨
    (l.toList = [] ∧ infoStep none [] l = Except.error PyErr.indexError) ∨
    (isFieldLine l = true ∧ infoStep none [] l = Except.error
      (if hasColonContent l then PyErr.keyError else PyErr.valueError)) ∨
    (isJunkLine l = true ∧ infoStep none [] l = Except.error PyErr.parseError)
    := by
  cases hcs : l.toList with
  | nil =>
    exact Or.inr (Or.inl ⟨rfl, by simp [infoStep, show l.data = [] from hcs]⟩)
  | cons c rest =>
    have hcs' : l.data = c :: rest := hcs
    have hcp : ¬(c = '+') := by
      intro he
      subst he
      simp [startsPlus, hcs'] at hp
    by_cases hcb : c = '|'
    · subst hcb
      by_cases hdrop : (l.toList.drop 2).isEmpty = true
      · left
        have hin : isInertLine l = true := by
          unfold isInertLine
          rw [hcs] at hdrop ⊢
          rw [hdrop]
          rfl
        exact ⟨hin, infoStep_inert none [] l hin⟩
      · right; right; left
        rw [Bool.not_eq_true] at hdrop
        have hf : isFieldLine l = true := by
          unfold isFieldLine
          rw [hcs] at hdrop ⊢
          rw [hdrop]
          rfl
        exact ⟨hf, infoStep_field_none l hf⟩
    · right; right; right
      have hj : isJunkLine l = true := by
        unfold isJunkLine
        rw [hcs]
        have e2 : decide (List.take 1 (c :: rest) = ['+']) = false := by
          rw [decide_eq_false_iff_not]
          intro he
          simp only [List.take_succ_cons, List.take_zero, List.cons.injEq,
            and_true] at he
          exact hcp he
        have e3 : decide (List.take 1 (c :: rest) = ['|']) = false := by
          rw [decide_eq_false_iff_not]
          intro he
          simp only [List.take_succ_cons, List.take_zero, List.cons.injEq,
            and_true] at he
          exact hcb he
        rw [e2, e3]
        rfl
      refine ⟨hj, ?_⟩
      simp [infoStep, hcs', hcp, hcb]

/-- On the initial state, a line that does not open a section either leaves
the state unchanged (an empty-content field line) or raises some
exception. -/
theorem infoStep_pre (l : String) (hp : startsPlus l = false) :
    infoStep none [] l = Except.ok (none, []) ∨
    ∃ e, infoStep none [] l = Except.error e := by
  cases hcs : l.toList with
  | nil =>
    right
    exact ⟨PyErr.indexError, by simp [infoStep, show l.data = [] from hcs]⟩
  | cons c rest =>
    have hcs' : l.data = c :: rest := hcs
    have hcp : ¬(c = '+') := by
      intro he
      subst he
      simp [startsPlus, hcs'] at hp
    by_cases hcb : c = '|'
    · subst hcb
      by_cases hdrop : rest.tail = []
      · left
        simp [infoStep, hcs', hcp, hdrop]
      · right
        cases hsc : splitFirstColon rest.tail with
        | none =>
          exact ⟨PyErr.valueError, by
            simp [infoStep, hcs', hcp, hdrop, pyFieldSplit, hsc, bindErr]⟩
        | some p =>
          exact ⟨PyErr.keyError, by
            simp [infoStep, hcs', hcp, hdrop, pyFieldSplit, hsc, bindOk]⟩
    · right
      exact ⟨PyErr.parseError, by simp [infoStep, hcs', hcp, hcb]⟩

/-- Any info response with a contentful field line before the first
section-opening line fails with some exception. -/
theorem info_go_field_error (post : List String) (fl : String)
    (hfl : isFieldLine fl = true) :
    ∀ pre : List String, pre.all (fun l => !startsPlus l) = true →
      ∃ e, info (pre ++ fl :: post) = Except.error e := by
  intro pre
  induction pre with
  | nil =>
    intro _
    refine ⟨if hasColonContent fl then PyErr.keyError else PyErr.valueError,
      ?_⟩
    exact infoGo_cons_error none [] fl post _ (infoStep_field_none fl hfl)
  | cons l pre ih =>
    intro hall
    rw [List.all_cons, Bool.and_eq_true] at hall
    have hp : startsPlus l = false := by
      cases hq : startsPlus l
      · rfl
      · rw [hq] at hall
        exact absurd hall.1 (by decide)
    rcases infoStep_pre l hp with hok | ⟨e, herr⟩
    · rcases ih hall.2 with ⟨e, he⟩
      refine ⟨e, ?_⟩
      have hstep : infoGo none [] (l :: (pre ++ fl :: post))
          = infoGo none [] (pre ++ fl :: post) :=
        infoGo_cons_ok none [] l _ (none, []) hok
      show infoGo none [] ((l :: pre) ++ fl :: post) = Except.error e
      rw [List.cons_append, hstep]
      exact he
    · refine ⟨e, ?_⟩
      show infoGo none [] ((l :: pre) ++ fl :: post) = Except.error e
      rw [List.cons_append]
      exact infoGo_cons_error none [] l _ e herr

/-- When every line before the field line is a skipped empty-content `'|'`
line, the field line is actually reached and the decoder fails with exactly
KeyError (colon in the content) or ValueError (no colon). -/
theorem info_go_inert_exact (post : List String) (fl : String)
    (hfl : isFieldLine fl = true) :
    ∀ pre : List String, pre.all isInertLine = true →
      info (pre ++ fl :: post) = Except.error
        (if hasColonContent fl then PyErr.keyError else PyErr.valueError) := by
  intro pre
  induction pre with
  | nil =>
    intro _
    exact infoGo_cons_error none [] fl post _ (infoStep_field_none fl hfl)
  | cons l pre ih =>
    intro hall
    rw [List.all_cons, Bool.and_eq_true] at hall
    have hstep : infoGo none [] (l :: (pre ++ fl :: post))
        = infoGo none [] (pre ++ fl :: post) :=
      infoGo_cons_ok none [] l _ (none, []) (infoStep_inert none [] l hall.1)
    show infoGo none [] ((l :: pre) ++ fl :: post) = _
    rw [List.cons_append, hstep]
    exact ih hall.2

/-- A ParseError from decoding such a response can only come from an earlier
line that starts with neither `'+'` nor `'|'`: the field line itself and the
other non-`'+'` line shapes raise KeyError, ValueError or IndexError. -/
theorem info_go_parse_only (post : List String) (fl : String)
    (hfl : isFieldLine fl = true) :
    ∀ pre : List String, pre.all (fun l => !startsPlus l) = true →
      info (pre ++ fl :: post) = Except.error PyErr.parseError →
      ∃ l ∈ pre, isJunkLine l = true := by
  intro pre
  induction pre with
  | nil =>
    intro _ hres
    exfalso
    have h := infoGo_cons_error none [] fl post _ (infoStep_field_none fl hfl)
    have hres' : infoGo none [] (fl :: post)
        = Except.error PyErr.parseError := hres
    have hcontr := h.symm.trans hres'
    cases hcc : hasColonContent fl
    · rw [hcc] at hcontr
      simp at hcontr
    · rw [hcc] at hcontr
      simp at hcontr
  | cons l pre ih =>
    intro hall hres
    rw [List.all_cons, Bool.and_eq_true] at hall
    have hp : startsPlus l = false := by
      cases hq : startsPlus l
      · rfl
      · rw [hq] at hall
        exact absurd hall.1 (by decide)
    have hres' : infoGo none [] (l :: (pre ++ fl :: post))
        = Except.error PyErr.parseError := hres
    rcases infoStep_classify l hp with ⟨hin, hok⟩ | ⟨hnil, herr⟩ |
      ⟨hfl2, herr⟩ | ⟨hj, herr⟩
    · have hstep := infoGo_cons_ok none [] l (pre ++ fl :: post) (none, []) hok
      rw [hstep] at hres'
      rcases ih hall.2 hres' with ⟨x, hx, hxj⟩
      exact ⟨x, List.mem_cons_of_mem l hx, hxj⟩
    · exfalso
      have hcontr :=
        (infoGo_cons_error none [] l (pre ++ fl :: post) _ herr).symm.trans
          hres'
      simp at hcontr
    · exfalso
      have hcontr :=
        (infoGo_cons_error none [] l (pre ++ fl :: post) _ herr).symm.trans
          hres'
      cases hcc : hasColonContent l
      · rw [hcc] at hcontr
        simp at hcontr
      · rw [hcc] at hcontr
        simp at hcontr
    · exact ⟨l, List.mem_cons_self l pre, hj⟩

/-- C1 (amended): for every raw info response in which a contentful field
line occurs before any section-opening line, decoding fails with an
exception; whenever that field line is reached (every earlier line is an
empty-content `'|'` line, the only shape the loop skips) the exception is
exactly the unhandled KeyError from looking up the unset section when the
content has a colon, and ValueError when it has none — not ParseError as
claimed; and a ParseError can only arise from an earlier line starting with
neither `'+'` nor `'|'`. -/
theorem info_field_line_before_section (pre post : List String) (fl : String)
    (h1 : isFieldLine fl = true)
    (h2 : pre.all (fun l => !startsPlus l) = true) :
    (∃ e, info (pre ++ fl :: post) = Except.error e) ∧
    (pre.all isInertLine = true →
      info (pre ++ fl :: post) = Except.error
        (if hasColonContent fl then PyErr.keyError else PyErr.valueError)) ∧
    (info (pre ++ fl :: post) = Except.error PyErr.parseError →
      ∃ l ∈ pre, isJunkLine l = true) :=
  ⟨info_go_field_error post fl h1 pre h2,
   fun hin => info_go_inert_exact post fl h1 pre hin,
   fun hres => info_go_parse_only post fl h1 pre h2 hres⟩

/-- Concrete instantiation of the field-line-before-section behaviour: the
KeyError branch, the ValueError branch, a skipped empty-content line before
the field line, and the junk-line origin of a ParseError. -/
theorem info_field_line_before_section_witness :
    info ([] ++ "| a: b" :: []) = Except.error PyErr.keyError ∧
    info ([] ++ "| no colon here" :: []) = Except.error PyErr.valueError ∧
    info (["|"] ++ "| a: b" :: []) = Except.error PyErr.keyError ∧
    (∃ e, info (["junk"] ++ "| a: b" :: []) = Except.error e) ∧
    (∃ l ∈ ["junk"], isJunkLine l = true) :=
  ⟨Eq.trans
     ((info_field_line_before_section [] [] "| a: b" (by decide)
       (by decide)).2.1 (by decide)) (by decide),
   Eq.trans
     ((info_field_line_before_section [] [] "| no colon here" (by decide)
       (by decide)).2.1 (by decide)) (by decide),
   Eq.trans
     ((info_field_line_before_section ["|"] [] "| a: b" (by decide)
       (by decide)).2.1 (by decide)) (by decide),
   (info_field_line_before_section ["junk"] [] "| a: b" (by decide)
     (by decide)).1,
   (info_field_line_before_section ["junk"] [] "| a: b" (by decide)
     (by decide)).2.2 (by decide)⟩

/-- C1 counterexample: a field line before any section makes the info decoder
raise KeyError, which is not the ParseError the claim states. -/
theorem info_field_line_counterexample :
    info ["| Description: Closed captions 4"] = Except.error PyErr.keyError ∧
    decide (info ["| Description: Closed captions 4"]
        = Except.error PyErr.parseError) = false :=
  ⟨by decide, by decide⟩

end VLCTelnet
